import Mathlib

/-!
Shallow embedding of the native security-key manager host
(`src/native/src/transport.rs`, `fido2.rs`, `piv.rs`, `protocol.rs`).

Bytes are modelled as `Nat`; a HID report or an APDU is a `List Nat`.
Device I/O is modelled by explicit wires: the sequence of reports the
authenticator will deliver is a `List (List Nat)` argument, and the
reports the host writes are returned as data.  A Rust `panic!`
(out-of-bounds slice index) is modelled by a dedicated error value,
since the Rust code aborts there rather than returning.
-/

namespace SkManager

/-- Errors of the FIDO2/CTAPHID layer, mirroring the `anyhow!` error
messages of `fido2.rs` plus a `panicked` outcome for Rust slice-index
panics. -/
inductive CtapErr where
  | timeout
  | responseTooShort
  | ctaphidError (code : Nat)
  | contTooShort
  | cidMismatch
  | seqMismatch
  | emptyResponse
  | ctap2Error (status : Nat)
  | initNonceMismatch
  | invalidInitReply
  | panicked
  deriving DecidableEq, Repr

/-! ## Transport layer (`transport.rs`) -/

/-- `send_hid` (transport.rs:13-33): reject inputs longer than 64 octets
before writing anything; otherwise pad with zeros to exactly 64 octets
and write that single report.  The result is the report written, `none`
standing for the PacketTooLarge failure where nothing is written. -/
def send_hid (data : List Nat) : Option (List Nat) :=
  if data.length > 64 then none
  else some (data ++ List.replicate (64 - data.length) 0)

/-! ## CTAPHID request framing (`fido2.rs`, `ctap2_command` send side) -/

/-- Continuation-packet loop of `ctap2_command` (fido2.rs:174-186):
while `sent < data.len()`, emit a packet `cid ++ [seq] ++ chunk ++ zero
padding` where the chunk is the next `min (data.length - sent) 59`
octets, and increment the sequence number. -/
def ctap2_send_cont (cid : List Nat) (data : List Nat) (sent : Nat) (seq : Nat) :
    List (List Nat) :=
  if h : sent < data.length then
    let chunk_len := min (data.length - sent) 59
    (cid ++ [seq % 256] ++ ((data.drop sent).take chunk_len) ++
        List.replicate (64 - 5 - chunk_len) 0)
      :: ctap2_send_cont cid data (sent + chunk_len) (seq + 1)
  else []
termination_by data.length - sent
decreasing_by
  have h1 : 1 ≤ min (data.length - sent) 59 := by omega
  omega

/-- Send side of `ctap2_command` (fido2.rs:154-186).  The payload length
is `1 + data.length` (command byte counts); the initialization packet is
`cid ++ [0x10 ||| 0x80] ++ [BCNTH, BCNTL] ++ [command] ++ first chunk ++
zero padding`, where the first chunk is `min data.length 57` octets of
the body.  The Rust code copies that chunk into `packet[8..8+len]` of a
64-octet array, which is out of bounds whenever the chunk exceeds 56
octets; `none` models that panic (no packet sequence is produced). -/
def ctap2_request_packets (cid : List Nat) (command : Nat) (data : List Nat) :
    Option (List (List Nat)) :=
  let payload_len := 1 + data.length
  let first_chunk_len := min data.length 57
  if 8 + first_chunk_len > 64 then none
  else
    some ((cid ++ [0x90] ++ [payload_len / 256 % 256, payload_len % 256] ++
            [command % 256] ++ data.take first_chunk_len ++
            List.replicate (64 - 8 - first_chunk_len) 0)
          :: ctap2_send_cont cid data first_chunk_len 0)

/-- The packet-count formula asserted by the specification: for a total
request length `L` (command byte included), `1 + ⌈max (0, L-56) / 59⌉`
packets. -/
def spec_packet_count (L : Nat) : Nat :=
  1 + (L - 56 + 58) / 59

/-! ## CTAPHID response reassembly (`fido2.rs`, `ctap2_command` receive side) -/

/-- CTAP2 status check on the reassembled body (fido2.rs:250-262): an
empty body is an error; a non-zero first octet is `Ctap2Error(status)`;
a zero first octet is stripped and the rest returned. -/
def ctap2_check_status (response_data : List Nat) : Except CtapErr (List Nat) :=
  match response_data with
  | [] => .error .emptyResponse
  | status :: rest =>
      if status ≠ 0 then .error (.ctap2Error status) else .ok rest

/-- Continuation-packet receive loop of `ctap2_command` (fido2.rs:225-248):
while `received < data_len`, read the next report, require length ≥ 5,
matching CID in octets 0..4 and the expected sequence number in octet 4,
then append `min (data_len - received) 59` payload octets.  Reading past
the end of a short report is the `panicked` outcome. -/
def ctap2_recv_cont (cid : List Nat) (wire : List (List Nat)) (data_len : Nat)
    (acc : List Nat) (received : Nat) (seq : Nat) : Except CtapErr (List Nat) :=
  if received < data_len then
    match wire with
    | [] => .error .timeout
    | cont :: rest =>
        if cont.length < 5 then .error .contTooShort
        else if cont.take 4 ≠ cid then .error .cidMismatch
        else if cont.getD 4 0 ≠ seq % 256 then .error .seqMismatch
        else
          let chunk_len := min (data_len - received) 59
          if cont.length < 5 + chunk_len then .error .panicked
          else ctap2_recv_cont cid rest data_len
                 (acc ++ (cont.drop 5).take chunk_len) (received + chunk_len) (seq + 1)
  else .ok acc

/-- Parse an initialization-response report (fido2.rs:215-248 after the
keepalive branch): the announced body length is `BCNTH<<8 | BCNTL`
(octets 5 and 6); up to 57 octets of body come from octets 7.. of this
report; remaining octets come from continuation packets. -/
def ctap2_parse_response (cid : List Nat) (response : List Nat)
    (wire : List (List Nat)) : Except CtapErr (List Nat) :=
  let data_len := response.getD 5 0 * 256 + response.getD 6 0
  let initial_data_len := min data_len 57
  if response.length < 7 + initial_data_len then .error .panicked
  else
    match ctap2_recv_cont cid wire data_len ((response.drop 7).take initial_data_len)
        initial_data_len 0 with
    | .error e => .error e
    | .ok body => ctap2_check_status body

/-- Receive side of `ctap2_command` (fido2.rs:188-262).  The first
report must be at least 7 octets.  CMD octet `0x3F` is a CTAPHID error
whose code is octet 7 (reading it from a 7-octet report panics).  CMD
octet `0x3B` (keepalive) causes one re-read whose result is only
length-checked: the Rust `let response` inside the `if` block shadows
the outer binding locally, so the header and payload are still parsed
from the first (keepalive) report. -/
def ctap2_receive (cid : List Nat) (wire : List (List Nat)) :
    Except CtapErr (List Nat) :=
  match wire with
  | [] => .error .timeout
  | response :: rest =>
      if response.length < 7 then .error .responseTooShort
      else if response.getD 4 0 = 0x3F then
        if h : 7 < response.length then .error (.ctaphidError (response.get ⟨7, h⟩))
        else .error .panicked
      else if response.getD 4 0 = 0x3B then
        match rest with
        | [] => .error .timeout
        | response2 :: rest2 =>
            if response2.length < 7 then .error .responseTooShort
            else ctap2_parse_response cid response rest2
      else ctap2_parse_response cid response rest

/-! ## CTAPHID channel allocation (`fido2.rs`, `ctaphid_init`) -/

/-- The INIT request packet (fido2.rs:110-118): broadcast CID
`FF FF FF FF`, command `0x06 ||| 0x80`, BCNT = 8, then the 8-octet
nonce, zero-padded to 64 octets. -/
def ctaphid_init_packet (nonce : List Nat) : List Nat :=
  [0xFF, 0xFF, 0xFF, 0xFF, 0x86, 0x00, 0x08] ++ nonce.take 8 ++
    List.replicate 49 0

/-- Parsing of the INIT reply (fido2.rs:124-142): require at least 19
octets, require octets 8..16 to echo the nonce, and extract the new CID
from octets 15..19. -/
def ctaphid_init_parse (nonce : List Nat) (reply : List Nat) :
    Except CtapErr (List Nat) :=
  if reply.length ≥ 19 then
    if (reply.drop 8).take 8 ≠ nonce then .error .initNonceMismatch
    else .ok ((reply.drop 15).take 4)
  else .error .invalidInitReply

/-! ## Credential listing entry (`fido2.rs`, `list_credentials`) -/

/-- Where modelling of `list_credentials` stops: either an early result,
or control reaching `get_pin_token` with an allocated channel (the
remaining enumeration involves ECDH key agreement and is outside the
claims about this function's entry). -/
inductive ListCredsOutcome where
  | err (e : CtapErr)
  | emptyNoPin
  | proceedsWithPin (cid : List Nat) (pin : List Nat)
  deriving DecidableEq, Repr

/-- Entry of `list_credentials` (fido2.rs:1014-1033): `ctaphid_init` is
performed first (one INIT packet written, one reply read); only then is
the optional PIN examined, a missing PIN returning the empty list.  The
first component is the list of reports written up to the modelled
point. -/
def list_credentials_entry (nonce : List Nat) (wire : List (List Nat))
    (pin : Option (List Nat)) : List (List Nat) × ListCredsOutcome :=
  let pkt := ctaphid_init_packet nonce
  match wire with
  | [] => ([pkt], .err .timeout)
  | reply :: _ =>
      match ctaphid_init_parse nonce reply with
      | .error e => ([pkt], .err e)
      | .ok cid =>
          match pin with
          | none => ([pkt], .emptyNoPin)
          | some p => ([pkt], .proceedsWithPin cid p)

/-! ## PIN length validation (`fido2.rs`, `set_pin` / `change_pin`) -/

/-- Where modelling of `set_pin`/`change_pin` stops: a length-validation
failure, or control reaching `ctaphid_init` — the first device I/O,
after which key agreement and encryption follow. -/
inductive PinOpStart where
  | errPinTooShort
  | errPinTooLong
  | proceedsToDevice
  deriving DecidableEq, Repr

/-- Entry of `set_pin` (fido2.rs:728-740): the new PIN's byte length is
checked against 4 and 63 before anything else; PINs are given as their
UTF-8 bytes (`new_pin.len()` in Rust is the byte length). -/
def set_pin_entry (new_pin : List Nat) : PinOpStart :=
  if new_pin.length < 4 then .errPinTooShort
  else if new_pin.length > 63 then .errPinTooLong
  else .proceedsToDevice

/-- Entry of `change_pin` (fido2.rs:803-820): only the NEW PIN's byte
length is checked; the current PIN is passed through unvalidated. -/
def change_pin_entry (current_pin new_pin : List Nat) : PinOpStart :=
  if new_pin.length < 4 then .errPinTooShort
  else if new_pin.length > 63 then .errPinTooLong
  else .proceedsToDevice

/-! ## CBOR values and `get_pin_retries` (`fido2.rs`) -/

/-- The subset of `ciborium::Value` the client inspects; `other` stands
for the remaining constructors (floats, null, tags, …), which every
`cbor_to_*` helper rejects alike. -/
inductive Cbor where
  | int (i : Int)
  | bytes (b : List Nat)
  | text (s : String)
  | arr (l : List Cbor)
  | map (m : List (Cbor × Cbor))
  | bool (b : Bool)
  | other

/-- `cbor_to_u8` (fido2.rs:287-300): an integer in `0..=255`, else
`none`. -/
def cbor_to_u8 (v : Cbor) : Option Nat :=
  match v with
  | .int i => if 0 ≤ i ∧ i ≤ 255 then some i.toNat else none
  | _ => none

/-- `cbor_to_bool` (fido2.rs:305-310). -/
def cbor_to_bool (v : Cbor) : Option Bool :=
  match v with
  | .bool b => some b
  | _ => none

/-- `PinRetries` result record (fido2.rs:91-95). -/
structure PinRetries where
  retries : Nat
  power_cycle_required : Bool
  deriving DecidableEq, Repr

/-- Field loop of `get_pin_retries` (fido2.rs:561-581): start from
`retries = 8`, `power_cycle_required = false`; an entry with integer
key 3 sets `retries` to `cbor_to_u8 value` with default 8, one with
integer key 5 sets `power_cycle_required` to `cbor_to_bool value` with
default `false`; all other entries are ignored. -/
def pin_retries_step (acc : PinRetries) (kv : Cbor × Cbor) : PinRetries :=
  match kv.1 with
  | .int 3 => { acc with retries := (cbor_to_u8 kv.2).getD 8 }
  | .int 5 => { acc with power_cycle_required := (cbor_to_bool kv.2).getD false }
  | _ => acc

/-- `get_pin_retries` field loop entry point (fido2.rs:558-586). -/
def get_pin_retries_parse (m : List (Cbor × Cbor)) : PinRetries :=
  m.foldl pin_retries_step { retries := 8, power_cycle_required := false }

/-! ## PIV layer (`piv.rs`) -/

/-- Errors of the PIV layer. -/
inductive PivErr where
  | io
  | responseTooShort
  | getResponseTooShort
  | apduError (sw1 sw2 : Nat)
  | getResponseError (sw1 sw2 : Nat)
  deriving DecidableEq, Repr

/-- Symbolic status recorded in the activity log (piv.rs:190-193). -/
inductive ApduStatus where
  | ok
  | moreData
  | error
  deriving DecidableEq, Repr

/-- One activity-log entry (piv.rs: `ApduLog`); command and response are
kept as byte lists rather than hex strings. -/
structure ApduLog where
  command : List Nat
  response : List Nat
  sw1 : Nat
  sw2 : Nat
  status : ApduStatus
  deriving DecidableEq, Repr

/-- Status classification used for each log entry (piv.rs:190-193,
225-228). -/
def apdu_log_status (sw1 sw2 : Nat) : ApduStatus :=
  if sw1 = 0x90 ∧ sw2 = 0x00 then .ok
  else if sw1 = 0x61 then .moreData
  else .error

/-- `build_get_response_apdu` (piv.rs:148-156): `00 C0 00 00 le`. -/
def build_get_response_apdu (le : Nat) : List Nat :=
  [0x00, 0xC0, 0x00, 0x00, le]

/-- Make the log entry for one transmitted APDU. -/
def mk_apdu_log (apdu response : List Nat) (sw1 sw2 : Nat) : ApduLog :=
  { command := apdu, response := response, sw1 := sw1, sw2 := sw2,
    status := apdu_log_status sw1 sw2 }

/-- `GET RESPONSE` loop of `transmit_apdu_with_chaining`
(piv.rs:198-244): read the next raw response from the wire, require two
octets, log it, append its body; stop at `90 00`, continue at `61 XX`
with the new remaining count, fail otherwise. -/
def piv_chain_loop (wire : List (List Nat)) (remaining : Nat) (acc : List Nat)
    (logs : List ApduLog) : Except PivErr (List Nat × List ApduLog) :=
  match wire with
  | [] => .error .io
  | chunk :: rest =>
      if chunk.length < 2 then .error .getResponseTooShort
      else
        let sw1 := chunk.getD (chunk.length - 2) 0
        let sw2 := chunk.getD (chunk.length - 1) 0
        let data := chunk.take (chunk.length - 2)
        let logs' := logs ++ [mk_apdu_log (build_get_response_apdu remaining) chunk sw1 sw2]
        let acc' := acc ++ data
        if sw1 = 0x90 ∧ sw2 = 0x00 then .ok (acc', logs')
        else if sw1 = 0x61 then piv_chain_loop rest sw2 acc' logs'
        else .error (.getResponseError sw1 sw2)

/-- `transmit_apdu_with_chaining` (piv.rs:159-257) over an explicit wire
of raw responses (body followed by the two status octets).  The first
response is length-checked and logged; `61 XX` enters the GET RESPONSE
loop; `90 00` returns the body; `6A 82` returns an empty body with no
error; anything else is `ApduError(sw1, sw2)`. -/
def transmit_apdu_with_chaining (wire : List (List Nat)) (apdu : List Nat) :
    Except PivErr (List Nat × List ApduLog) :=
  match wire with
  | [] => .error .io
  | response :: rest =>
      if response.length < 2 then .error .responseTooShort
      else
        let sw1 := response.getD (response.length - 2) 0
        let sw2 := response.getD (response.length - 1) 0
        let data := response.take (response.length - 2)
        let log1 := mk_apdu_log apdu response sw1 sw2
        if sw1 = 0x61 then piv_chain_loop rest sw2 data [log1]
        else if sw1 ≠ 0x90 ∨ sw2 ≠ 0x00 then
          if sw1 = 0x6A ∧ sw2 = 0x82 then .ok ([], [log1])
          else .error (.apduError sw1 sw2)
        else .ok (data, [log1])

/-- `parse_tlv` loop body (piv.rs:259-310), written with a fuel counter
equal to the input length at the top-level call: every loop iteration of
the Rust code consumes at least the tag's first octet, so the fuel is
never exhausted before the index loop ends.  Tag: one octet, or — when
its low five bits are all ones — continuation octets while the high bit
is set plus one closing octet.  Length: one octet, with `0x81`/`0x82`/
`0x83` introducing a 1/2/3-octet big-endian length when enough octets
remain.  An entry whose value would run past the end stops the parse. -/
def parse_tlv_go : Nat → List Nat → List (List Nat × List Nat)
  | 0, _ => []
  | _, [] => []
  | fuel + 1, b :: rest =>
      let tagRest : List Nat × List Nat :=
        if Nat.land b 0x1F = 0x1F then
          let cont := rest.takeWhile (fun x => Nat.land x 0x80 ≠ 0)
          match rest.dropWhile (fun x => Nat.land x 0x80 ≠ 0) with
          | [] => (b :: cont, [])
          | c :: r2 => (b :: (cont ++ [c]), r2)
        else ([b], rest)
      match tagRest.2 with
      | [] => []
      | lb :: rest2 =>
          let lenRest : Nat × List Nat :=
            match lb, rest2 with
            | 0x81, x :: r => (x, r)
            | 0x82, x :: y :: r => (x * 256 + y, r)
            | 0x83, x :: y :: z :: r => (x * 65536 + y * 256 + z, r)
            | _, _ => (lb, rest2)
          if lenRest.1 ≤ lenRest.2.length then
            (tagRest.1, lenRest.2.take lenRest.1) ::
              parse_tlv_go fuel (lenRest.2.drop lenRest.1)
          else []

/-- `parse_tlv` (piv.rs:259-310). -/
def parse_tlv (data : List Nat) : List (List Nat × List Nat) :=
  parse_tlv_go data.length data

/-- `extract_certificate_from_data` (piv.rs:313-332): the value of the
first inner tag `0x70` found inside an outer tag `0x53` entry. -/
def extract_certificate_from_data (data : List Nat) : Option (List Nat) :=
  (parse_tlv data).findSome? fun tv =>
    if tv.1 = [0x53] then
      (parse_tlv tv.2).findSome? fun itv =>
        if itv.1 = [0x70] then some itv.2 else none
    else none

/-- Certificate record fields the claims are about (piv.rs `PivCertificate`,
restricted to `present` and the hex-emitted certificate data). -/
structure PivCertificate where
  present : Bool
  certificate_data : Option (List Nat)
  deriving DecidableEq, Repr

/-- The per-slot match of `get_piv_data` (piv.rs:460-514): a chaining
result with non-empty body runs certificate extraction and `present`
records whether a certificate was found; an empty body or any error
yields an absent record. -/
def cert_slot_record (r : Except PivErr (List Nat × List ApduLog)) : PivCertificate :=
  match r with
  | .ok (data, _) =>
      if data ≠ [] then
        let cert_data := extract_certificate_from_data data
        { present := cert_data.isSome, certificate_data := cert_data }
      else { present := false, certificate_data := none }
  | .error _ => { present := false, certificate_data := none }

/-! ## Protocol probe (`protocol.rs`) -/

/-- Capability record (protocol.rs:8-16). -/
structure ProtocolSupport where
  fido2 : Bool
  u2f : Bool
  piv : Bool
  openpgp : Bool
  otp : Bool
  ndef : Bool
  deriving DecidableEq, Repr

/-- The vendor-specific OTP status packet built by `detect_otp`
(protocol.rs:258-269): broadcast CID, CMD `0x83`, BCNT = 5, then the
APDU `00 01 00 00 00`, zero-padded to 64 octets. -/
def detect_otp_packet : List Nat :=
  [0xFF, 0xFF, 0xFF, 0xFF, 0x83, 0x00, 0x05, 0x00, 0x01, 0x00, 0x00, 0x00] ++
    List.replicate 52 0

/-- `detect_otp` (protocol.rs:253-286): write the vendor packet and read
one report; BOTH arms of the match on the I/O outcome return `false`
(the success arm is deliberately conservative, the error arm catches the
exception). -/
def detect_otp (io : List Nat → Except CtapErr (List Nat)) : Bool :=
  match io detect_otp_packet with
  | .ok _ => false
  | .error _ => false

/-- `detect_protocols` (protocol.rs:340-376): the six per-capability
probes each return a plain boolean (their internal error handling
records failures as `false`); the probe composes them into a capability
record and always returns success. -/
def detect_protocols (fido2 u2f piv openpgp : Bool)
    (otpIo : List Nat → Except CtapErr (List Nat)) (ndef : Bool) :
    Except CtapErr ProtocolSupport :=
  .ok { fido2 := fido2, u2f := u2f, piv := piv, openpgp := openpgp,
        otp := detect_otp otpIo, ndef := ndef }

/-- A well-formed single-packet CTAPHID response announcing the body
`rd` (as delivered by an authenticator): the channel, the CBOR response
command octet `0x90`, `BCNTH = 0`, `BCNTL = rd.length`, the body, and
zero padding to 64 octets.  Meaningful for `rd.length ≤ 57`. -/
def mk_response_packet (cid : List Nat) (rd : List Nat) : List Nat :=
  cid ++ [0x90, 0, rd.length] ++ rd ++ List.replicate (57 - rd.length) 0

/-! ## Helper lemmas -/

/-- Reading the first status octet of a raw APDU response. -/
lemma getD_append_pair_fst (l : List Nat) (a b : Nat) :
    (l ++ [a, b]).getD ((l ++ [a, b]).length - 2) 0 = a := by
  have hlen : (l ++ [a, b]).length = l.length + 2 := by simp
  rw [hlen, Nat.add_sub_cancel]
  rw [List.getD_append_right l [a, b] 0 l.length le_rfl]
  simp

/-- Reading the second status octet of a raw APDU response. -/
lemma getD_append_pair_snd (l : List Nat) (a b : Nat) :
    (l ++ [a, b]).getD ((l ++ [a, b]).length - 1) 0 = b := by
  have hlen : (l ++ [a, b]).length = l.length + 2 := by simp
  rw [hlen, show l.length + 2 - 1 = l.length + 1 by omega]
  rw [List.getD_append_right l [a, b] 0 (l.length + 1) (by omega)]
  simp

/-- The body of a raw APDU response is everything before the status word. -/
lemma take_append_pair (l : List Nat) (a b : Nat) :
    (l ++ [a, b]).take ((l ++ [a, b]).length - 2) = l := by
  have hlen : (l ++ [a, b]).length = l.length + 2 := by simp
  rw [hlen, Nat.add_sub_cancel, List.take_append_of_le_length le_rfl, List.take_length]

/-- The continuation-send loop emits nothing once the whole body has
been sent. -/
lemma ctap2_send_cont_done (cid data : List Nat) (sent seq : Nat)
    (h : data.length ≤ sent) : ctap2_send_cont cid data sent seq = [] := by
  rw [ctap2_send_cont]
  simp [Nat.not_lt.mpr h]

/-- For a body of at most 56 octets the send side of `ctap2_command`
emits exactly the one initialization packet, carrying the full body. -/
lemma ctap2_request_packets_small (cid : List Nat) (command : Nat) (data : List Nat)
    (h : data.length ≤ 56) :
    ctap2_request_packets cid command data =
      some [cid ++ [0x90, 0, data.length + 1, command % 256] ++ data ++
            List.replicate (56 - data.length) 0] := by
  unfold ctap2_request_packets
  dsimp only
  split
  · next hcond => omega
  · next hcond =>
      have hmin : min data.length 57 = data.length := Nat.min_eq_left (by omega)
      rw [hmin, List.take_length, ctap2_send_cont_done cid data data.length 0 le_rfl,
        Nat.div_eq_of_lt (show 1 + data.length < 256 by omega),
        Nat.mod_eq_of_lt (show 1 + data.length < 256 by omega),
        show 1 + data.length = data.length + 1 by omega,
        show 64 - 8 - data.length = 56 - data.length by omega]
      simp

/-- For a body of 57 octets or more, the copy of the first chunk
(`min data.length 57 = 57` octets into the 56 free octets of the
64-octet packet) is out of bounds and the code panics. -/
lemma ctap2_request_packets_large (cid : List Nat) (command : Nat) (data : List Nat)
    (h : 57 ≤ data.length) :
    ctap2_request_packets cid command data = none := by
  unfold ctap2_request_packets
  have hmin : min data.length 57 = 57 := Nat.min_eq_right (by omega)
  simp [hmin]

/-- The `retries` component of the `get_pin_retries` field loop stays at
its start value 8 when no entry provides a usable field 3. -/
lemma pin_retries_foldl_retries (m : List (Cbor × Cbor)) (acc : PinRetries)
    (hacc : acc.retries = 8)
    (h : ∀ kv ∈ m, kv.1 = .int 3 → cbor_to_u8 kv.2 = none) :
    (m.foldl pin_retries_step acc).retries = 8 := by
  induction m generalizing acc with
  | nil => simpa using hacc
  | cons kv t ih =>
      rw [List.foldl_cons]
      refine ih (pin_retries_step acc kv) ?_ ?_
      · unfold pin_retries_step
        split
        · next heq => rw [h kv (List.mem_cons_self kv t) heq]; exact rfl
        · next heq => exact hacc
        · exact hacc
      · intro kv' hm hk
        exact h kv' (List.mem_cons_of_mem kv hm) hk

/-- The `power_cycle_required` component of the `get_pin_retries` field
loop stays `false` when no entry provides a boolean field 5. -/
lemma pin_retries_foldl_pcr (m : List (Cbor × Cbor)) (acc : PinRetries)
    (hacc : acc.power_cycle_required = false)
    (h : ∀ kv ∈ m, kv.1 = .int 5 → cbor_to_bool kv.2 = none) :
    (m.foldl pin_retries_step acc).power_cycle_required = false := by
  induction m generalizing acc with
  | nil => simpa using hacc
  | cons kv t ih =>
      rw [List.foldl_cons]
      refine ih (pin_retries_step acc kv) ?_ ?_
      · unfold pin_retries_step
        split
        · exact hacc
        · next heq => rw [h kv (List.mem_cons_self kv t) heq]; exact rfl
        · exact hacc
      · intro kv' hm hk
        exact h kv' (List.mem_cons_of_mem kv hm) hk

/-! ## Claims -/

/-- C5: `send_hid` pads any input of at most 64 octets with zeros to a
single 64-octet report whose prefix is the input, and rejects longer
inputs without writing. -/
theorem send_hid_pads (d : List Nat) :
    (d.length ≤ 64 →
      ∃ w, send_hid d = some w ∧ w.length = 64 ∧ w.take d.length = d ∧
        w.drop d.length = List.replicate (64 - d.length) 0) ∧
    (64 < d.length → send_hid d = none) := by
  constructor
  · intro h
    refine ⟨d ++ List.replicate (64 - d.length) 0, ?_, ?_, ?_, ?_⟩
    · unfold send_hid
      simp [Nat.not_lt.mpr h]
    · simp; omega
    · rw [List.take_append_of_le_length le_rfl, List.take_length]
    · rw [List.drop_append_of_le_length le_rfl, List.drop_length, List.nil_append]
  · intro h
    unfold send_hid
    simp [h]

/-- C5 witness: a 3-octet input and a 65-octet input. -/
theorem send_hid_pads_witness :
    (∃ w, send_hid [1, 2, 3] = some w ∧ w.length = 64 ∧ w.take 3 = [1, 2, 3] ∧
       w.drop 3 = List.replicate 61 0) ∧
    send_hid (List.replicate 65 0) = none :=
  ⟨(send_hid_pads [1, 2, 3]).1 (by decide),
   (send_hid_pads (List.replicate 65 0)).2 (by simp)⟩

/-- C1 counterexample: a 56-octet body (total length L = 57, command
byte included) is framed in exactly ONE packet, but the claimed formula
`1 + ⌈max (0, L-56) / 59⌉` gives 2. -/
theorem ctap2_framing_count_counterexample :
    (ctap2_request_packets [1, 2, 3, 4] 0x0A (List.replicate 56 0)).map List.length =
      some 1 ∧
    spec_packet_count (1 + (List.replicate 56 (0 : Nat)).length) = 2 := by
  constructor
  · rw [ctap2_request_packets_small [1, 2, 3, 4] 0x0A (List.replicate 56 0) (by simp)]
    rfl
  · rfl

/-- C1 (amended): for a total request length `L = data.length + 1 ≤ 57`
(command byte included) exactly `1 + ⌈max (0, L-57) / 59⌉ = 1` packet is
emitted, the initialization packet carrying the command byte plus the
whole body and zero padding; for `L ≥ 58` the first-chunk computation
`min data.length 57` exceeds the 56 free octets of the 64-octet packet,
the copy is out of bounds, and the exchange aborts with no packet
emitted. -/
theorem ctap2_request_framing (cid : List Nat) (command : Nat) (data : List Nat) :
    (data.length ≤ 56 →
      ctap2_request_packets cid command data =
        some [cid ++ [0x90, 0, data.length + 1, command % 256] ++ data ++
              List.replicate (56 - data.length) 0] ∧
      (ctap2_request_packets cid command data).map List.length =
        some (1 + (1 + data.length - 57 + 58) / 59)) ∧
    (57 ≤ data.length → ctap2_request_packets cid command data = none) := by
  constructor
  · intro h
    have heq := ctap2_request_packets_small cid command data h
    refine ⟨heq, ?_⟩
    rw [heq]
    have : (1 + data.length - 57 + 58) / 59 = 0 := by
      have : 1 + data.length - 57 = 0 := by omega
      rw [this]
    rw [this]
    rfl
  · exact ctap2_request_packets_large cid command data

/-- C1 witness: a 3-octet body gives one packet; a 57-octet body
aborts. -/
theorem ctap2_request_framing_witness :
    ctap2_request_packets [1, 2, 3, 4] 6 [9, 9, 9] =
      some [[1, 2, 3, 4] ++ [0x90, 0, 4, 6] ++ [9, 9, 9] ++ List.replicate 53 0] ∧
    ctap2_request_packets [1, 2, 3, 4] 6 (List.replicate 57 0) = none :=
  ⟨((ctap2_request_framing [1, 2, 3, 4] 6 [9, 9, 9]).1 (by decide)).1,
   (ctap2_request_framing [1, 2, 3, 4] 6 (List.replicate 57 0)).2 (by simp)⟩

/-- C2 counterexample: with the PIN argument absent, `list_credentials`
still writes the (64-octet broadcast) INIT packet — one HID report of
device I/O — before returning the empty list. -/
theorem list_credentials_no_pin_counterexample :
    (list_credentials_entry [1, 2, 3, 4, 5, 6, 7, 8]
        [[0, 0, 0, 0, 0, 0, 0, 0] ++ [1, 2, 3, 4, 5, 6, 7, 8] ++ [16, 17, 18]] none).1 =
      [ctaphid_init_packet [1, 2, 3, 4, 5, 6, 7, 8]] ∧
    (ctaphid_init_packet [1, 2, 3, 4, 5, 6, 7, 8]).length = 64 ∧
    (list_credentials_entry [1, 2, 3, 4, 5, 6, 7, 8]
        [[0, 0, 0, 0, 0, 0, 0, 0] ++ [1, 2, 3, 4, 5, 6, 7, 8] ++ [16, 17, 18]] none).2 =
      .emptyNoPin := by
  refine ⟨?_, by decide, ?_⟩ <;> rfl

/-- C2 (amended): a missing PIN makes `list_credentials` return the
empty credential list without sending any CTAP2 command — but only
after the CTAPHID channel allocation has run: exactly one report is
written, the broadcast INIT packet (command octet `0x86`, not the CBOR
command octet `0x90`). -/
theorem list_credentials_no_pin (nonce reply cid : List Nat) (rest : List (List Nat))
    (h : ctaphid_init_parse nonce reply = .ok cid) :
    list_credentials_entry nonce (reply :: rest) none =
      ([ctaphid_init_packet nonce], .emptyNoPin) ∧
    (ctaphid_init_packet nonce).getD 4 0 = 0x86 := by
  constructor
  · unfold list_credentials_entry
    dsimp only
    rw [h]
  · rfl

/-- C2 witness: a concrete INIT reply echoing the nonce. -/
theorem list_credentials_no_pin_witness :
    ctaphid_init_parse [9, 9, 9, 9, 9, 9, 9, 9]
        ([0, 0, 0, 0, 0, 0, 0, 0] ++ [9, 9, 9, 9, 9, 9, 9, 9] ++ [7, 7, 7]) =
      .ok [9, 7, 7, 7] ∧
    list_credentials_entry [9, 9, 9, 9, 9, 9, 9, 9]
        [[0, 0, 0, 0, 0, 0, 0, 0] ++ [9, 9, 9, 9, 9, 9, 9, 9] ++ [7, 7, 7]] none =
      ([ctaphid_init_packet [9, 9, 9, 9, 9, 9, 9, 9]], .emptyNoPin) :=
  ⟨by rfl,
   (list_credentials_no_pin [9, 9, 9, 9, 9, 9, 9, 9]
      ([0, 0, 0, 0, 0, 0, 0, 0] ++ [9, 9, 9, 9, 9, 9, 9, 9] ++ [7, 7, 7])
      [9, 7, 7, 7] [] (by rfl)).1⟩

/-- C3: the code does tolerate a leading KEEPALIVE packet by reading a
second report, but the inner `let response` shadows the outer binding
only inside the `if` block, so the announced length and payload are then
taken from the KEEPALIVE packet itself, not from the re-read real
response.  Here the keepalive packet (BCNT = 1, payload octet `0x01`)
is parsed as a one-octet body whose status octet is `0x01`, yielding
`Ctap2Error(0x01)`, while the real response announcing body `[0, 0xAB]`
is discarded; reading that real response alone yields `[0xAB]`.  The
ERROR half of the claim does hold: CMD `0x3F` fails with the packet's
CTAPHID error code. -/
theorem ctap2_keepalive_shadowing_bug :
    ctap2_receive [1, 2, 3, 4]
        [[1, 2, 3, 4, 0x3B, 0x00, 0x01, 0x01] ++ List.replicate 56 0,
         [1, 2, 3, 4, 0x90, 0x00, 0x02, 0x00, 0xAB] ++ List.replicate 55 0] =
      .error (.ctap2Error 0x01) ∧
    ctap2_receive [1, 2, 3, 4]
        [[1, 2, 3, 4, 0x90, 0x00, 0x02, 0x00, 0xAB] ++ List.replicate 55 0] =
      .ok [0xAB] ∧
    ctap2_receive [1, 2, 3, 4]
        [[1, 2, 3, 4, 0x3F, 0x00, 0x01, 0x2A] ++ List.replicate 56 0] =
      .error (.ctaphidError 0x2A) := by
  refine ⟨?_, ?_, ?_⟩ <;> rfl

/-- C4 counterexample: `change_pin` with current PIN `"12"` (bytes
`[0x31, 0x32]`, length 2) and new PIN `"5678"` passes validation and
proceeds to key agreement and device I/O — the current PIN's length is
never checked. -/
theorem change_pin_current_unchecked_counterexample :
    change_pin_entry [0x31, 0x32] [0x35, 0x36, 0x37, 0x38] = .proceedsToDevice := by
  decide

/-- C4 (amended): the length constraint `4 ≤ |pin| ≤ 63` is enforced on
the NEW PIN of both `set_pin` and `change_pin` before any cryptographic
operation or device I/O (a too-short or too-long new PIN fails
immediately); the CURRENT PIN of `change_pin` is not length-checked. -/
theorem pin_length_validation (current_pin new_pin : List Nat) :
    (new_pin.length < 4 →
      set_pin_entry new_pin = .errPinTooShort ∧
      change_pin_entry current_pin new_pin = .errPinTooShort) ∧
    (63 < new_pin.length →
      set_pin_entry new_pin = .errPinTooLong ∧
      change_pin_entry current_pin new_pin = .errPinTooLong) ∧
    (4 ≤ new_pin.length → new_pin.length ≤ 63 →
      set_pin_entry new_pin = .proceedsToDevice ∧
      change_pin_entry current_pin new_pin = .proceedsToDevice) := by
  refine ⟨fun h => ⟨?_, ?_⟩, fun h => ⟨?_, ?_⟩, fun h1 h2 => ⟨?_, ?_⟩⟩
  · unfold set_pin_entry; rw [if_pos h]
  · unfold change_pin_entry; rw [if_pos h]
  · unfold set_pin_entry; rw [if_neg (by omega), if_pos h]
  · unfold change_pin_entry; rw [if_neg (by omega), if_pos h]
  · unfold set_pin_entry; rw [if_neg (by omega), if_neg (by omega)]
  · unfold change_pin_entry; rw [if_neg (by omega), if_neg (by omega)]

/-- C4 witness: new PIN `"12"` is rejected as too short, a 64-octet new
PIN as too long, and `"5678"` passes — each regardless of the current
PIN. -/
theorem pin_length_validation_witness :
    (set_pin_entry [0x31, 0x32] = .errPinTooShort ∧
      change_pin_entry [0x39, 0x39, 0x39, 0x39] [0x31, 0x32] = .errPinTooShort) ∧
    (set_pin_entry (List.replicate 64 0x41) = .errPinTooLong ∧
      change_pin_entry [0x39, 0x39, 0x39, 0x39] (List.replicate 64 0x41) =
        .errPinTooLong) ∧
    (set_pin_entry [0x35, 0x36, 0x37, 0x38] = .proceedsToDevice ∧
      change_pin_entry [0x39, 0x39, 0x39, 0x39] [0x35, 0x36, 0x37, 0x38] =
        .proceedsToDevice) :=
  ⟨(pin_length_validation [0x39, 0x39, 0x39, 0x39] [0x31, 0x32]).1 (by decide),
   (pin_length_validation [0x39, 0x39, 0x39, 0x39] (List.replicate 64 0x41)).2.1
     (by simp),
   (pin_length_validation [0x39, 0x39, 0x39, 0x39] [0x35, 0x36, 0x37, 0x38]).2.2
     (by decide) (by decide)⟩

/-- C6: the first octet of the reassembled response body is the CTAP2
status: for any announced body `rd` delivered in a well-formed
single-packet response, the exchange result is exactly the status
interpretation of `rd` — an empty body is an error, a leading zero is
stripped and the rest returned, and a non-zero leading octet `s` fails
with `Ctap2Error(s)`. -/
theorem ctap2_status_interpretation (c0 c1 c2 c3 : Nat) (rd : List Nat)
    (h : rd.length ≤ 57) :
    ctap2_receive [c0, c1, c2, c3] [mk_response_packet [c0, c1, c2, c3] rd] =
      ctap2_check_status rd ∧
    (rd = [] → ctap2_check_status rd = .error .emptyResponse) ∧
    (∀ t, rd = 0 :: t → ctap2_check_status rd = .ok t) ∧
    (∀ s t, rd = s :: t → s ≠ 0 → ctap2_check_status rd = .error (.ctap2Error s)) := by
  refine ⟨?_, ?_, ?_, ?_⟩
  · have hpkt : mk_response_packet [c0, c1, c2, c3] rd =
        c0 :: c1 :: c2 :: c3 :: 0x90 :: 0 :: rd.length ::
          (rd ++ List.replicate (57 - rd.length) 0) := by
      simp [mk_response_packet]
    rw [hpkt]
    unfold ctap2_receive
    dsimp only
    rw [if_neg (by simp)]
    have hg4 : (c0 :: c1 :: c2 :: c3 :: 0x90 :: 0 :: rd.length ::
        (rd ++ List.replicate (57 - rd.length) 0)).getD 4 0 = 0x90 := rfl
    rw [hg4]
    rw [if_neg (by norm_num), if_neg (by norm_num)]
    unfold ctap2_parse_response
    dsimp only
    rw [show (c0 :: c1 :: c2 :: c3 :: 0x90 :: 0 :: rd.length ::
        (rd ++ List.replicate (57 - rd.length) 0)).getD 5 0 = 0 from rfl,
      show (c0 :: c1 :: c2 :: c3 :: 0x90 :: 0 :: rd.length ::
        (rd ++ List.replicate (57 - rd.length) 0)).getD 6 0 = rd.length from rfl]
    simp only [Nat.zero_mul, Nat.zero_add]
    rw [Nat.min_eq_left h]
    rw [if_neg (show ¬ ((c0 :: c1 :: c2 :: c3 :: 0x90 :: 0 :: rd.length ::
        (rd ++ List.replicate (57 - rd.length) 0)).length < 7 + rd.length) by
      simp; omega)]
    rw [show (c0 :: c1 :: c2 :: c3 :: 0x90 :: 0 :: rd.length ::
        (rd ++ List.replicate (57 - rd.length) 0)).drop 7 =
        rd ++ List.replicate (57 - rd.length) 0 from rfl]
    rw [List.take_append_of_le_length le_rfl, List.take_length]
    rw [show ctap2_recv_cont [c0, c1, c2, c3] [] rd.length rd rd.length 0 = .ok rd by
      unfold ctap2_recv_cont
      rw [if_neg (Nat.lt_irrefl _)]]
  · rintro rfl; rfl
  · rintro t rfl; rfl
  · rintro s t rfl hs
    unfold ctap2_check_status
    dsimp only
    rw [if_pos hs]

/-- C6 witness: body `[0x00, 0xAB]` — success status stripped, `[0xAB]`
returned. -/
theorem ctap2_status_interpretation_witness :
    ctap2_receive [1, 2, 3, 4] [mk_response_packet [1, 2, 3, 4] [0, 0xAB]] =
      ctap2_check_status [0, 0xAB] ∧
    ctap2_check_status [0, 0xAB] = .ok [0xAB] :=
  ⟨(ctap2_status_interpretation 1 2 3 4 [0, 0xAB] (by decide)).1,
   (ctap2_status_interpretation 1 2 3 4 [0, 0xAB] (by decide)).2.2.1 [0xAB] rfl⟩

/-- C7: on a `61 XX` status the body read so far is buffered and
`GET RESPONSE` (`00 C0 00 00 XX`) commands are issued until `90 00`,
concatenating all bodies, with one activity-log entry per APDU issued:
the stream `61 40` / `61 20` / `90 00` with payloads `b1`, `b2`, `b3`
yields the body `b1 ++ b2 ++ b3` and exactly three log entries, and with
payload lengths 64, 32, 32 that body has 128 octets. -/
theorem piv_response_chaining (apdu b1 b2 b3 : List Nat) :
    transmit_apdu_with_chaining
        [b1 ++ [0x61, 0x40], b2 ++ [0x61, 0x20], b3 ++ [0x90, 0x00]] apdu =
      .ok (b1 ++ b2 ++ b3,
        [mk_apdu_log apdu (b1 ++ [0x61, 0x40]) 0x61 0x40,
         mk_apdu_log (build_get_response_apdu 0x40) (b2 ++ [0x61, 0x20]) 0x61 0x20,
         mk_apdu_log (build_get_response_apdu 0x20) (b3 ++ [0x90, 0x00]) 0x90 0x00]) ∧
    (b1.length = 64 → b2.length = 32 → b3.length = 32 →
      (b1 ++ b2 ++ b3).length = 128) := by
  constructor
  · unfold transmit_apdu_with_chaining
    dsimp only
    rw [if_neg (by simp)]
    rw [getD_append_pair_fst, getD_append_pair_snd, take_append_pair]
    rw [if_pos rfl]
    unfold piv_chain_loop
    dsimp only
    rw [if_neg (by simp)]
    rw [getD_append_pair_fst, getD_append_pair_snd, take_append_pair]
    rw [if_neg (by norm_num), if_pos rfl]
    unfold piv_chain_loop
    dsimp only
    rw [if_neg (by simp)]
    rw [getD_append_pair_fst, getD_append_pair_snd, take_append_pair]
    rw [if_pos ⟨rfl, rfl⟩]
    simp [List.append_assoc]
  · intro h1 h2 h3
    simp [h1, h2, h3]

/-- C7 witness: concrete 64/32/32-octet payloads. -/
theorem piv_response_chaining_witness :
    transmit_apdu_with_chaining
        [List.replicate 64 0xAA ++ [0x61, 0x40],
         List.replicate 32 0xBB ++ [0x61, 0x20],
         List.replicate 32 0xCC ++ [0x90, 0x00]] [0x00, 0xCB, 0x3F, 0xFF] =
      .ok (List.replicate 64 0xAA ++ List.replicate 32 0xBB ++ List.replicate 32 0xCC,
        [mk_apdu_log [0x00, 0xCB, 0x3F, 0xFF]
           (List.replicate 64 0xAA ++ [0x61, 0x40]) 0x61 0x40,
         mk_apdu_log (build_get_response_apdu 0x40)
           (List.replicate 32 0xBB ++ [0x61, 0x20]) 0x61 0x20,
         mk_apdu_log (build_get_response_apdu 0x20)
           (List.replicate 32 0xCC ++ [0x90, 0x00]) 0x90 0x00]) ∧
    (List.replicate 64 0xAA ++ List.replicate 32 0xBB ++
      List.replicate 32 (0xCC : Nat)).length = 128 :=
  ⟨(piv_response_chaining [0x00, 0xCB, 0x3F, 0xFF] (List.replicate 64 0xAA)
      (List.replicate 32 0xBB) (List.replicate 32 0xCC)).1,
   (piv_response_chaining [0x00, 0xCB, 0x3F, 0xFF] (List.replicate 64 0xAA)
      (List.replicate 32 0xBB) (List.replicate 32 0xCC)).2
     (by simp) (by simp) (by simp)⟩

/-- C8: status word `6A 82` on a data-object request is not surfaced as
an error — it yields an empty body, and the certificate-slot record
built from that result has `present = false`; any other non-success,
non-`61 XX` status word fails with `ApduError(sw1, sw2)`. -/
theorem piv_6a82_absent (apdu data : List Nat) (sw1 sw2 : Nat) :
    (transmit_apdu_with_chaining [data ++ [0x6A, 0x82]] apdu =
        .ok ([], [mk_apdu_log apdu (data ++ [0x6A, 0x82]) 0x6A 0x82]) ∧
      cert_slot_record (transmit_apdu_with_chaining [data ++ [0x6A, 0x82]] apdu) =
        { present := false, certificate_data := none }) ∧
    (¬ (sw1 = 0x90 ∧ sw2 = 0x00) → sw1 ≠ 0x61 → ¬ (sw1 = 0x6A ∧ sw2 = 0x82) →
      transmit_apdu_with_chaining [data ++ [sw1, sw2]] apdu =
        .error (.apduError sw1 sw2)) := by
  have hok : transmit_apdu_with_chaining [data ++ [0x6A, 0x82]] apdu =
      .ok ([], [mk_apdu_log apdu (data ++ [0x6A, 0x82]) 0x6A 0x82]) := by
    unfold transmit_apdu_with_chaining
    dsimp only
    rw [if_neg (by simp)]
    rw [getD_append_pair_fst, getD_append_pair_snd, take_append_pair]
    rw [if_neg (by norm_num), if_pos (by norm_num), if_pos ⟨rfl, rfl⟩]
  refine ⟨⟨hok, ?_⟩, ?_⟩
  · rw [hok]; rfl
  · intro h90 h61 h6a
    unfold transmit_apdu_with_chaining
    dsimp only
    rw [if_neg (by simp)]
    rw [getD_append_pair_fst, getD_append_pair_snd, take_append_pair]
    rw [if_neg h61, if_pos (by tauto), if_neg h6a]

/-- C8 witness: `6A 82` yields an empty body and an absent record;
`69 82` is an APDU error. -/
theorem piv_6a82_absent_witness :
    transmit_apdu_with_chaining [[0x01, 0x6A, 0x82]] [0x00, 0xCB, 0x3F, 0xFF] =
      .ok ([], [mk_apdu_log [0x00, 0xCB, 0x3F, 0xFF] [0x01, 0x6A, 0x82] 0x6A 0x82]) ∧
    cert_slot_record
        (transmit_apdu_with_chaining [[0x01, 0x6A, 0x82]] [0x00, 0xCB, 0x3F, 0xFF]) =
      { present := false, certificate_data := none } ∧
    transmit_apdu_with_chaining [[0x69, 0x82]] [0x00, 0xCB, 0x3F, 0xFF] =
      .error (.apduError 0x69 0x82) :=
  ⟨((piv_6a82_absent [0x00, 0xCB, 0x3F, 0xFF] [0x01] 0 0).1).1,
   ((piv_6a82_absent [0x00, 0xCB, 0x3F, 0xFF] [0x01] 0 0).1).2,
   (piv_6a82_absent [0x00, 0xCB, 0x3F, 0xFF] [] 0x69 0x82).2
     (by decide) (by decide) (by decide)⟩

/-- C9: the protocol probe is total: for every outcome of the
per-capability probes — the five boolean probes and any reply or error
for the vendor-specific OTP command — `detect_protocols` returns a
capability record, and its `otp` field is always `false` (both arms of
`detect_otp` return `false`). -/
theorem detect_protocols_never_fails (f u p o n : Bool)
    (io : List Nat → Except CtapErr (List Nat)) :
    detect_protocols f u p o io n =
      .ok { fido2 := f, u2f := u, piv := p, openpgp := o, otp := false, ndef := n } ∧
    detect_otp io = false := by
  have hotp : detect_otp io = false := by
    unfold detect_otp
    cases io detect_otp_packet <;> rfl
  exact ⟨by unfold detect_protocols; rw [hotp], hotp⟩

/-- C10: a reply map lacking field 3, or whose field 3 is not an integer
in `0..=255`, leaves `retries` at the default 8 without failing;
likewise a missing or non-boolean field 5 leaves
`power_cycle_required = false`. -/
theorem get_pin_retries_defaults (m : List (Cbor × Cbor)) :
    ((∀ kv ∈ m, kv.1 = Cbor.int 3 → cbor_to_u8 kv.2 = none) →
      (get_pin_retries_parse m).retries = 8) ∧
    ((∀ kv ∈ m, kv.1 = Cbor.int 5 → cbor_to_bool kv.2 = none) →
      (get_pin_retries_parse m).power_cycle_required = false) := by
  constructor
  · intro h
    exact pin_retries_foldl_retries m _ rfl h
  · intro h
    exact pin_retries_foldl_pcr m _ rfl h

/-- C10 witness: a map whose field 3 is a text value and which has no
field 5 yields the defaults. -/
theorem get_pin_retries_defaults_witness :
    (get_pin_retries_parse [(.int 1, .int 7), (.int 3, .text "x")]).retries = 8 ∧
    (get_pin_retries_parse
        [(.int 1, .int 7), (.int 3, .text "x")]).power_cycle_required = false :=
  ⟨(get_pin_retries_defaults [(.int 1, .int 7), (.int 3, .text "x")]).1
    (by
      rintro kv hm h3
      rcases List.mem_cons.mp hm with rfl | hm2
      · exfalso; injection h3 with h3'; omega
      · rcases List.mem_cons.mp hm2 with rfl | hm3
        · rfl
        · cases hm3),
   (get_pin_retries_defaults [(.int 1, .int 7), (.int 3, .text "x")]).2
    (by
      rintro kv hm h5
      rcases List.mem_cons.mp hm with rfl | hm2
      · exfalso; injection h5 with h5'; omega
      · rcases List.mem_cons.mp hm2 with rfl | hm3
        · exfalso; injection h5 with h5'; omega
        · cases hm3)⟩

end SkManager
